import Mathlib

/-!
Shallow embedding, in Lean 4, of the parts of the dastard data-acquisition
server that the specification claims concern: the `RowColCode` packing, the
`DataStream` buffer operations, the writing-state machine (`WriteControl`,
`SetExperimentStateLabel`), trigger-state reconfiguration, the published
summary-message layout, and the RPC `WriteControl` reply convention.

Modelling conventions:
* Go `int`/`int64`/`FrameIndex` values are modelled as `Int`; conversions to
  fixed-width unsigned types and bit masks are made explicit with `% 2 ^ w`
  (via `Int.emod`), which is exactly Go's two's-complement behaviour.
* Go slices are `List`, Go strings are `String` (or `List Char` where the
  source indexes bytes; all relevant strings are ASCII).
* Wall-clock instants (`time.Time`) are pairs of whole seconds since the Unix
  epoch and a nanosecond offset in `[0, 10^9)`, matching the two Go accessors
  `UnixNano()` and `Nanosecond()` used by the source. `time.Duration` is an
  `Int` count of nanoseconds.
* Fallible operations with environment-dependent outcomes (`makeDirectory`)
  are parameters of type `Except`; a Go runtime panic is modelled as `none`
  of an `Option`-valued result.
* `float32`/`float64` analysis quantities are carried as their IEEE-754 bit
  patterns (`Nat`); the claims about them concern only byte layout, never
  floating-point arithmetic.
-/

/-- Raw sample values (Go `RawType = uint16`); the operations modelled here
never do arithmetic on samples, so plain `Nat` carries the values. -/
abbrev RawType := Nat

/-- Frame counter (Go `FrameIndex = int64`). -/
abbrev FrameIndex := Int

/-- Models both Go's `x & 0xffff` on a (two's-complement) `int` and the
conversion `uint16(x)`: both keep the low 16 bits, i.e. `x mod 2^16`. -/
def goMask16 (x : Int) : Nat := (x % 65536).toNat

/-- Go `uint32(x)` conversion: the low 32 bits of a two's-complement int. -/
def goUint32 (x : Int) : Nat := (x % 4294967296).toNat

/-- The 64-bit two's-complement bit pattern of a Go `int64`, as a `Nat`. -/
def goUint64 (x : Int) : Nat := (x % 18446744073709551616).toNat

/-- Wall-clock instant: Go `time.Time` restricted to the two accessors the
modelled code uses. `nanosecond < 10^9` is the offset within the second. -/
structure GoTime where
  unixSec : Int
  nanosecond : Nat
deriving Repr, DecidableEq

/-- Go `Time.Nanosecond()`: the nanosecond offset within the current second. -/
def GoTime.Nanosecond (t : GoTime) : Int := (t.nanosecond : Int)

/-- Go `Time.UnixNano()`: nanoseconds elapsed since the Unix epoch. -/
def GoTime.UnixNano (t : GoTime) : Int := t.unixSec * 1000000000 + (t.nanosecond : Int)

/-! ## RowColCode (src/data_source.go lines 141-162)

`RowColCode` is a `uint64`; we carry its bit pattern as a `Nat < 2^64`.
In `rcCode` the Go source builds the code with `code<<16 | (x & 0xffff)`;
since the OR operands occupy disjoint bit ranges this is `code * 2^16 + x'`,
and the intermediate values stay below `2^64`, so no wrap-around occurs in
the bit pattern (the signed `int` overflow in Go changes the sign bit only,
not the bits, and `RowColCode(code)` reinterprets the bits as `uint64`). -/

abbrev RowColCode := Nat

/-- Go `(c RowColCode) row()`: `int((uint64(c) >> 0) & 0xffff)`. -/
def RowColCode.row (c : RowColCode) : Int := (c / 1 % 65536 : Nat)

/-- Go `(c RowColCode) col()`: `int((uint64(c) >> 16) & 0xffff)`; `>> 16` is
division by `2^16 = 65536`. -/
def RowColCode.col (c : RowColCode) : Int := (c / 65536 % 65536 : Nat)

/-- Go `(c RowColCode) rows()`: `int((uint64(c) >> 32) & 0xffff)`; `>> 32` is
division by `2^32 = 4294967296`. -/
def RowColCode.rows (c : RowColCode) : Int := (c / 4294967296 % 65536 : Nat)

/-- Go `(c RowColCode) cols()`: `int((uint64(c) >> 48) & 0xffff)`; `>> 48` is
division by `2^48 = 281474976710656`. -/
def RowColCode.cols (c : RowColCode) : Int := (c / 281474976710656 % 65536 : Nat)

/-- Go `rcCode(row, col, rows, cols int) RowColCode`: the four steps
`code := cols & 0xffff`, then three times `code = code<<16 | (x & 0xffff)`,
written with the shift-or steps expanded to `* 65536 + _`. -/
def rcCode (row col rows cols : Int) : RowColCode :=
  ((goMask16 cols * 65536 + goMask16 rows) * 65536 + goMask16 col) * 65536 + goMask16 row

/-! ## DataSegment and DataStream (src/data_source.go lines 699-769)

The Go structs carry a `voltsPerArb float32` field; it is never read or
written by the operations modelled here and floats are outside the
embedding, so it is omitted. -/

structure DataSegment where
  rawData : List RawType
  signed : Bool
  framesPerSample : Nat
  firstFramenum : FrameIndex
  firstTime : Int
  framePeriod : Int
  processed : Bool
deriving Repr, DecidableEq

structure DataStream extends DataSegment where
  samplesSeen : Nat
deriving Repr, DecidableEq

/-- Go `(stream *DataStream) AppendSegment(segment *DataSegment)`.
`framesNowInStream` uses the segment's `framesPerSample` and
`timeNowInStream` the stream's (pre-update) `framePeriod`, as in the source.
`time.Time.Add` of a nanosecond duration is integer addition here. -/
def DataStream.AppendSegment (stream : DataStream) (segment : DataSegment) : DataStream :=
  let framesNowInStream : Int := ((stream.rawData.length * segment.framesPerSample : Nat) : Int)
  let timeNowInStream : Int := framesNowInStream * stream.framePeriod
  { stream with
    framesPerSample := segment.framesPerSample
    framePeriod := segment.framePeriod
    firstFramenum := segment.firstFramenum - framesNowInStream
    firstTime := segment.firstTime - timeNowInStream
    rawData := stream.rawData ++ segment.rawData
    samplesSeen := stream.samplesSeen + segment.rawData.length }

/-- Go `(stream *DataStream) TrimKeepingN(N int) int`: keeps at most the
trailing `N` samples (the overlapping `copy` plus reslice is `List.drop`)
and returns the resulting length alongside the stream. -/
def DataStream.TrimKeepingN (stream : DataStream) (N : Nat) : DataStream × Nat :=
  let L := stream.rawData.length
  if N ≥ L then (stream, L)
  else
    ({ stream with
       rawData := stream.rawData.drop (L - N)
       firstFramenum := stream.firstFramenum + (((L - N) * stream.framesPerSample : Nat) : Int)
       firstTime := stream.firstTime + (((L - N) * stream.framesPerSample : Nat) : Int) * stream.framePeriod },
     N)

/-- Absolute frame index of sample `i` of a buffer that starts at frame
`firstFrame` with `framesPerSample` frames between consecutive samples
(the spec's indexing convention, cf. `DataSegment.TimeOf`). -/
def sampleFrame (firstFrame : FrameIndex) (framesPerSample : Nat) (i : Nat) : Int :=
  firstFrame + (i : Int) * (framesPerSample : Int)

/-- Example stream with `framesPerSample = 2` (a decimated channel). -/
def trimStreamEx : DataStream :=
  { rawData := [1, 2], signed := false, framesPerSample := 2, firstFramenum := 0,
    firstTime := 0, framePeriod := 5, processed := false, samplesSeen := 2 }

/-! ## Summary messages (src/publish_data.go lines 437-455)

The serialization helpers live in the repository's `getbytes` package, which
is not under src/; they are modelled from the spec, which fixes every field
of the published frames as little-endian of the stated width (§6). -/

/-- Little-endian bytes: `w` bytes of `x`, least significant first. -/
def bytesLE (w : Nat) (x : Nat) : List Nat :=
  (List.range w).map fun i => x / 256 ^ i % 256

/-- Modelled from the spec: `getbytes.FromUint16` (package `getbytes` is not
under src/) — a `uint16` as 2 little-endian bytes. -/
def fromUint16 (x : Nat) : List Nat := bytesLE 2 x

/-- Modelled from the spec: `getbytes.FromUint8` — a single byte. -/
def fromUint8 (x : Nat) : List Nat := bytesLE 1 x

/-- Modelled from the spec: `getbytes.FromUint32` — a `uint32` as 4
little-endian bytes. -/
def fromUint32 (x : Nat) : List Nat := bytesLE 4 x

/-- Modelled from the spec: `getbytes.FromInt64` — an `int64` as 8
little-endian bytes of its two's-complement bit pattern. -/
def fromInt64 (x : Int) : List Nat := bytesLE 8 (goUint64 x)

/-- Modelled from the spec: `getbytes.FromFloat32` — a `float32` as the 4
little-endian bytes of its IEEE-754 bit pattern (carried here as a `Nat`;
the claims never compute with float values, only lay bytes out). -/
def fromFloat32Bits (bits : Nat) : List Nat := bytesLE 4 bits

/-- Modelled from the spec: `getbytes.FromSliceFloat64` — a `[]float64` as
the concatenation of each coefficient's 8 little-endian bit-pattern bytes. -/
def fromSliceFloat64Bits (coefs : List Nat) : List Nat :=
  (coefs.map (bytesLE 8)).flatten

/-- The fields of `DataRecord` that `messageSummaries` reads (the field is
spelled `channum` in publish_data.go's record accesses). The five `float32`
analysis quantities and the `float64` model coefficients are carried as
IEEE-754 bit patterns. -/
structure DataRecord where
  channum : Int
  presamples : Int
  data : List RawType
  pretrigMeanBits : Nat
  peakValueBits : Nat
  pulseRMSBits : Nat
  pulseAverageBits : Nat
  residualStdDevBits : Nat
  trigTime : GoTime
  trigFrame : FrameIndex
  modelCoefsBits : List Nat
deriving Repr, DecidableEq

/-- Go `messageSummaries(rec *DataRecord) [][]byte` (the two-frame message):
`uint16(rec.channum)`, version byte 0, `uint32(rec.presamples)`,
`uint32(len(rec.data))`, the five `float32` summary quantities,
`FromInt64(rec.trigTime.UnixNano())`, `FromInt64(int64(rec.trigFrame))`;
second frame `FromSliceFloat64(rec.modelCoefs)`. -/
def messageSummaries (rec : DataRecord) : List Nat × List Nat :=
  let header :=
    fromUint16 (goMask16 rec.channum)
    ++ fromUint8 0
    ++ fromUint32 (goUint32 rec.presamples)
    ++ fromUint32 (goUint32 (rec.data.length : Int))
    ++ fromFloat32Bits rec.pretrigMeanBits
    ++ fromFloat32Bits rec.peakValueBits
    ++ fromFloat32Bits rec.pulseRMSBits
    ++ fromFloat32Bits rec.pulseAverageBits
    ++ fromFloat32Bits rec.residualStdDevBits
    ++ fromInt64 rec.trigTime.UnixNano
    ++ fromInt64 rec.trigFrame
  (header, fromSliceFloat64Bits rec.modelCoefsBits)

/-- A concrete record on which to evaluate `messageSummaries`. -/
def summaryRecEx : DataRecord :=
  { channum := 7, presamples := 256, data := [0, 0, 0], pretrigMeanBits := 0,
    peakValueBits := 0, pulseRMSBits := 0, pulseAverageBits := 0,
    residualStdDevBits := 0, trigTime := { unixSec := 0, nanosecond := 0 },
    trigFrame := 0, modelCoefsBits := [] }

/-! ## WritingState and the experiment-state file
(src/data_source.go lines 238-261 and 435-445)

`*os.File` for the experiment-state file is modelled as the file's text
content plus a closed flag; `nil` is `none`. `os.Create` truncates and the
subsequent writes are modelled as succeeding (I/O failures are environment
events outside the embedding; every claim here concerns the success path). -/

structure ExpFile where
  closed : Bool
  content : String
deriving Repr, DecidableEq

structure WritingState where
  Active : Bool
  Paused : Bool
  BasePath : String
  FilenamePattern : String
  experimentStateFile : Option ExpFile
  ExperimentStateFilename : String
  ExperimentStateLabel : String
  ExperimentStateLabelUnixNano : Int
deriving Repr, DecidableEq

/-- Go `(writingState *WritingState) SetExperimentStateLabel(stateLabel)`:
creates the file and writes the header (with no trailing newline, as in the
source) if the handle is nil, then stores the label, sets
`ExperimentStateLabelUnixNano = time.Now().Nanosecond()` — note: the
sub-second offset, not `UnixNano()` — and appends
`fmt.Sprintf("%v, %v\n", ExperimentStateLabelUnixNano, stateLabel)`. -/
def WritingState.setExperimentStateLabel (ws : WritingState) (now : GoTime)
    (stateLabel : String) : WritingState :=
  let ws :=
    match ws.experimentStateFile with
    | none =>
        { ws with
          experimentStateFile := some
            (ExpFile.mk false "# unix time in nanoseconds, state label") }
    | some _ => ws
  let ws := { ws with
    ExperimentStateLabel := stateLabel
    ExperimentStateLabelUnixNano := now.Nanosecond }
  let newFile :=
    match ws.experimentStateFile with
    | none => none
    | some f =>
        some (ExpFile.mk f.closed
          (f.content ++ toString ws.ExperimentStateLabelUnixNano
            ++ ", " ++ stateLabel ++ "\n"))
  { ws with experimentStateFile := newFile }

/-- An initial writing state whose experiment-state file is not created yet. -/
def wsLazyEx : WritingState :=
  { Active := true, Paused := true, BasePath := "/data", FilenamePattern := "p",
    experimentStateFile := none, ExperimentStateFilename := "es.txt",
    ExperimentStateLabel := "", ExperimentStateLabelUnixNano := 0 }

/-- A call instant 1700000000 s + 5 ns after the Unix epoch. -/
def callTimeEx : GoTime := { unixSec := 1700000000, nanosecond := 5 }

/-! ## WriteControl (src/data_source.go lines 289-433)

Strings are ASCII here: `strings.ToUpper` is a per-char `Char.toUpper` and
`strings.HasPrefix` is `goStarts`. The LJH22/OFF/LJH3 writer handles are
modelled by the filename each was opened with (`Option String`, `none` for
the Go nil handle): the writer packages `ljh`/`off` are not under src/, and
the claims consult only which handles exist. `RemoveX` closes the handle
being discarded and sets it to nil, which here is setting the field to
`none`. The numeric header metadata passed to `SetLJH22`/`SetOFF`/`SetLJH3`
lives inside those absent writer packages and is omitted with them. -/

/-- Go `strings.HasPrefix(s, pre)` (ASCII). -/
def goStarts : List Char → List Char → Bool
  | _, [] => true
  | [], _ :: _ => false
  | c :: cs, p :: ps => (c == p) && goStarts cs ps

/-- Go `strings.ToUpper` (ASCII), as the char list the prefix tests run on. -/
def goToUpper (s : String) : List Char := s.toList.map Char.toUpper

def reqSTART : List Char := ['S', 'T', 'A', 'R', 'T']

def reqSTOP : List Char := ['S', 'T', 'O', 'P']

def reqPAUSE : List Char := ['P', 'A', 'U', 'S', 'E']

def reqUNPAUSE : List Char := ['U', 'N', 'P', 'A', 'U', 'S', 'E']

/-- Go `fmt.Sprintf` restricted to `%s` verbs — the only verbs left in the
patterns `makeDirectory` mints (`<dir>/<date>_run<nnnn>_%s.%s`). -/
def substPercentS : List Char → List String → List Char
  | [], _ => []
  | '%' :: 's' :: rest, a :: args => a.toList ++ substPercentS rest args
  | c :: rest, args => c :: substPercentS rest args

/-- Render `fmt.Sprintf(pattern, a, b)` for a two-`%s` pattern. -/
def sprintf2 (pattern a b : String) : String :=
  String.mk (substPercentS pattern.toList [a, b])

/-- The per-channel writer/pause surface of `DataPublisher` that
`WriteControl` touches. `SetPause` is not under src/ and is modelled from
the spec: it toggles a per-channel pause flag consulted by the publisher. -/
structure DataPublisher where
  LJH22 : Option String
  OFF : Option String
  LJH3 : Option String
  pause : Bool
deriving Repr, DecidableEq

/-- The per-channel state `WriteControl` reads and writes: the publisher,
the channel name (used to render filenames), and whether the projectors and
basis matrices are zero-valued (`mat.Dense.IsZero`; the matrices themselves
live in gonum, outside the embedding). -/
structure Dsp where
  Name : String
  DataPublisher : DataPublisher
  projectorsZero : Bool
  basisZero : Bool
deriving Repr, DecidableEq

/-- The slice of `AnySource` that `WriteControl` uses: the processors and
the atomically stored `WritingState`. -/
structure AnySourceState where
  processors : List Dsp
  writingState : WritingState
deriving Repr, DecidableEq

/-- Go `WriteControlConfig` (rpc_server.go lines 315-323). -/
structure WriteControlConfig where
  Request : String
  Path : String
  WriteLJH22 : Bool
  WriteOFF : Bool
  WriteLJH3 : Bool
deriving Repr, DecidableEq

/-- The validation phase of `WriteControl` (all the early `return err`
paths before any mutation), returning the possibly-updated local
`writingState` copy (the UNPAUSE-label path writes the state file) plus the
`path` and `filenamePattern` locals. `makeDirectory` touches the filesystem
and is passed in as its outcome `mkdir`. -/
def writeControlValidate (mkdir : Except String String) (now : GoTime)
    (source : AnySourceState) (config : WriteControlConfig) (ws : WritingState)
    (request : List Char) : Except String (WritingState × String × String) :=
  if goStarts request reqSTART then
    if !(config.WriteLJH22 || config.WriteOFF || config.WriteLJH3) then
      Except.error "WriteLJH22 and WriteOFF and WriteLJH3 all false"
    else if source.processors.any (fun dsp =>
        dsp.DataPublisher.LJH22.isSome || dsp.DataPublisher.OFF.isSome
          || dsp.DataPublisher.LJH3.isSome) then
      Except.error "Writing already in progress, stop writing before starting again"
    else
      let path := if 0 < config.Path.length then config.Path else ws.BasePath
      match mkdir with
      | Except.error e => Except.error ("Could not make directory: " ++ e)
      | Except.ok filenamePattern =>
        if config.WriteOFF && !(source.processors.any (fun dsp =>
            !(dsp.projectorsZero || dsp.basisZero))) then
          Except.error "no projectors are loaded, OFF files require projectors"
        else Except.ok (ws, path, filenamePattern)
  else if goStarts request reqUNPAUSE && decide (7 < config.Request.length) then
    if (config.Request.toList.drop 7).take 1 != [' '] || config.Request.length == 8 then
      Except.error "request format invalid, want someting like UNPAUSE label"
    else
      let stateLabel := String.mk (config.Request.toList.drop 8)
      Except.ok (ws.setExperimentStateLabel now stateLabel, "", "")
  else Except.ok (ws, "", "")

/-- The PAUSE mutation block plus the final `SetWritingState`. -/
def applyPause (source : AnySourceState) (ws : WritingState) :
    AnySourceState × Option String :=
  let procs := source.processors.map (fun dsp =>
    let pub := { dsp.DataPublisher with pause := true }
    { dsp with DataPublisher := pub })
  ({ processors := procs, writingState := { ws with Paused := true } }, none)

/-- The UNPAUSE mutation block plus the final `SetWritingState`. -/
def applyUnpause (source : AnySourceState) (ws : WritingState) :
    AnySourceState × Option String :=
  let procs := source.processors.map (fun dsp =>
    let pub := { dsp.DataPublisher with pause := false }
    { dsp with DataPublisher := pub })
  ({ processors := procs, writingState := { ws with Paused := false } }, none)

/-- The STOP mutation block plus the final `SetWritingState`: every writer
handle is removed (closing it), the state fields are cleared, and the
experiment-state file, when open, is closed (the Go code closes the `*os.File`
but leaves the pointer in place, so the closed handle stays `some`). -/
def applyStop (source : AnySourceState) (ws : WritingState) :
    AnySourceState × Option String :=
  let wsFile :=
    match ws.experimentStateFile with
    | none => none
    | some f => some (ExpFile.mk true f.content)
  let procs := source.processors.map (fun dsp =>
    let pub := { dsp.DataPublisher with LJH22 := none, OFF := none, LJH3 := none }
    { dsp with DataPublisher := pub })
  let ws2 := { ws with
    Active := false
    Paused := false
    FilenamePattern := ""
    experimentStateFile := wsFile
    ExperimentStateFilename := ""
    ExperimentStateLabel := ""
    ExperimentStateLabelUnixNano := 0 }
  ({ processors := procs, writingState := ws2 }, none)

/-- The START mutation block plus the final `SetWritingState`: each enabled
file type gets a writer handle per channel (OFF only on channels with
non-zero projectors), and the writing state becomes active with the minted
pattern. -/
def applyStart (source : AnySourceState) (config : WriteControlConfig)
    (ws : WritingState) (path filenamePattern : String) :
    AnySourceState × Option String :=
  let procs := source.processors.map (fun dsp =>
    let pub := dsp.DataPublisher
    let pub := if config.WriteLJH22 then
        { pub with LJH22 := some (sprintf2 filenamePattern dsp.Name "ljh") }
      else pub
    let pub := if config.WriteOFF && !dsp.projectorsZero then
        { pub with OFF := some (sprintf2 filenamePattern dsp.Name "off") }
      else pub
    let pub := if config.WriteLJH3 then
        { pub with LJH3 := some (sprintf2 filenamePattern dsp.Name "ljh3") }
      else pub
    { dsp with DataPublisher := pub })
  let ws2 := { ws with
    Active := true
    Paused := false
    BasePath := path
    FilenamePattern := filenamePattern
    ExperimentStateFilename := sprintf2 filenamePattern "experiment_state" "txt" }
  ({ processors := procs, writingState := ws2 }, none)

/-- Go `(ds *AnySource) WriteControl(config *WriteControlConfig) error`:
validation phase (early returns), the request-kind check, then the mutation
block selected by the uppercased request's prefix, then `SetWritingState`.
The result pairs the post-call source state with the returned error. -/
def writeControl (mkdir : Except String String) (now : GoTime)
    (source : AnySourceState) (config : WriteControlConfig) :
    AnySourceState × Option String :=
  let request := goToUpper config.Request
  match writeControlValidate mkdir now source config source.writingState request with
  | Except.error e => (source, some e)
  | Except.ok (ws1, path, filenamePattern) =>
    if !(goStarts request reqSTART || goStarts request reqSTOP
        || goStarts request reqPAUSE || goStarts request reqUNPAUSE) then
      (source, some "WriteControl config.Request, need one of (START,STOP,PAUSE,UNPAUSE)")
    else if goStarts request reqPAUSE then applyPause source ws1
    else if goStarts request reqUNPAUSE then applyUnpause source ws1
    else if goStarts request reqSTOP then applyStop source ws1
    else if goStarts request reqSTART then applyStart source config ws1 path filenamePattern
    else ({ source with writingState := ws1 }, none)

/-- A channel with no writers, zero projectors, and zero basis. -/
def dspEx : Dsp :=
  { Name := "chan0",
    DataPublisher := { LJH22 := none, OFF := none, LJH3 := none, pause := false },
    projectorsZero := true, basisZero := true }

/-- A source with one idle channel, writing active and a created state file. -/
def sourceEx : AnySourceState :=
  let ws : WritingState := {
    Active := true
    Paused := true
    BasePath := "/data"
    FilenamePattern := "/data/20261011/0000/20261011_run0000_%s.%s"
    experimentStateFile := some (ExpFile.mk false "# header")
    ExperimentStateFilename := "es.txt"
    ExperimentStateLabel := "START"
    ExperimentStateLabelUnixNano := 42 }
  { processors := [dspEx], writingState := ws }

/-! ## ChangeTriggerState (src/data_source.go lines 661-676)

Channel indices arrive from RPC as Go `int` and may be negative, so they are
`Int` here. The per-channel trigger state is the `TriggerState` fields the
source manipulates (cf. the `defaultTS` literal in `PrepareRun`);
`time.Duration` is nanoseconds. -/

structure TriggerState where
  AutoTrigger : Bool
  AutoDelay : Int
  EdgeTrigger : Bool
  EdgeLevel : Int
  EdgeRising : Bool
  LevelTrigger : Bool
  LevelLevel : Int
deriving Repr, DecidableEq

/-- Go `FullTriggerState` (the embedded `TriggerState` named explicitly). -/
structure FullTriggerState where
  ChannelIndicies : List Int
  triggerState : TriggerState
deriving Repr, DecidableEq

/-- The default trigger state installed by `PrepareRun` (250 ms auto delay). -/
def defaultTS : TriggerState :=
  { AutoTrigger := false, AutoDelay := 250000000, EdgeTrigger := false,
    EdgeLevel := 100, EdgeRising := true, LevelTrigger := false,
    LevelLevel := 4000 }

/-- The second loop of `ChangeTriggerState`: for each listed index, fetch
`ds.processors[channelIndex]` and configure it. `ConfigureTrigger` itself is
not under src/; modelled from the spec ("configure triggers, bulk by
channel-index list") as installing the given state on that channel. A Go
slice access with a negative (or too large) index is a runtime panic,
modelled as `none`. -/
def setTriggerLoop : List Int → List TriggerState → TriggerState →
    Option (List TriggerState)
  | [], procs, _ => some procs
  | i :: restIdx, procs, ts =>
    if 0 ≤ i ∧ i.toNat < procs.length then
      setTriggerLoop restIdx (procs.set i.toNat ts) ts
    else none

/-- Go `(ds *AnySource) ChangeTriggerState(state *FullTriggerState) error`:
reject an empty index list; reject (before any mutation) any index with
`channelIndex >= ds.nchan`; then run the update loop. The outer `none`
models the runtime panic the loop can hit, `Except` the returned error. -/
def changeTriggerState (nchan : Int) (procs : List TriggerState)
    (state : FullTriggerState) : Option (Except String (List TriggerState)) :=
  if state.ChannelIndicies.length < 1 then
    some (Except.error "got ConfigureTriggers with no valid ChannelIndicies")
  else if state.ChannelIndicies.any (fun i => decide (nchan ≤ i)) then
    some (Except.error "channelIndex is >= ds.nchan")
  else (setTriggerLoop state.ChannelIndicies procs state.triggerState).map Except.ok

/-- An edge-trigger configuration to request. -/
def edgeTS : TriggerState :=
  { AutoTrigger := false, AutoDelay := 0, EdgeTrigger := true,
    EdgeLevel := 50, EdgeRising := true, LevelTrigger := false,
    LevelLevel := 0 }

/-! ## SourceControl.WriteControl (src/rpc_server.go lines 326-335) -/

/-- Go `(s *SourceControl) WriteControl(config, reply *bool) error`: sets
`*reply = true`; if no source is active, returns nil with the reply still
true; otherwise calls the active source's `WriteControl` — its outcome is
the parameter `sourceErr`, `none` standing for a nil error — and then sets
`*reply = (err != nil)`. The pair is (final reply, returned error); the
`broadcastWritingState` call touches only the client update channel. -/
def sourceControlWriteControl (hasActiveSource : Bool)
    (sourceErr : Option String) : Bool × Option String :=
  let reply := true
  if !hasActiveSource then (reply, none)
  else
    let reply := sourceErr.isSome
    (reply, sourceErr)

/-! ## Helper lemmas -/

lemma goMask16_lt (x : Int) : goMask16 x < 65536 := by
  unfold goMask16
  omega

lemma goMask16_cast (x : Int) : (goMask16 x : Int) = x % 65536 := by
  unfold goMask16
  omega

lemma bytesLE_length (w x : Nat) : (bytesLE w x).length = w := by
  simp [bytesLE]

lemma fromSliceFloat64Bits_length (coefs : List Nat) :
    (fromSliceFloat64Bits coefs).length = 8 * coefs.length := by
  induction coefs with
  | nil => rfl
  | cons c cs ih =>
    simp [fromSliceFloat64Bits, bytesLE_length] at ih ⊢
    omega

lemma goStarts_nil (l : List Char) : goStarts l [] = true := by
  cases l <;> rfl

lemma goStarts_stop_self (rest : List Char) :
    goStarts (reqSTOP ++ rest) reqSTOP = true := by
  simp [reqSTOP, goStarts, goStarts_nil]

lemma goStarts_stop_start (rest : List Char) :
    goStarts (reqSTOP ++ rest) reqSTART = false := rfl

lemma goStarts_stop_pause (rest : List Char) :
    goStarts (reqSTOP ++ rest) reqPAUSE = false := rfl

lemma goStarts_stop_unpause (rest : List Char) :
    goStarts (reqSTOP ++ rest) reqUNPAUSE = false := rfl

lemma goStarts_start_self (rest : List Char) :
    goStarts (reqSTART ++ rest) reqSTART = true := by
  simp [reqSTART, goStarts, goStarts_nil]

/-! ## The claims -/

/-- Claim C1 evaluated on the code: with an active source, a successful
underlying `WriteControl` (nil error) yields `reply = false`, and a failing
one yields `reply = true` — the code computes `reply = (err != nil)`,
the negation of the specified "ok iff err == nil". -/
theorem C1_code_eval :
    (sourceControlWriteControl true none).1 = false
    ∧ (sourceControlWriteControl true (some "boom")).1 = true := by
  refine ⟨by decide, by decide⟩

/-- Claim C2 is false as stated: the first frame of a summary message is 47
bytes (2+1+4+4 + 5·4 + 8+8), not 44, already on this concrete record. -/
theorem C2_counterexample : (messageSummaries summaryRecEx).1.length ≠ 44 := by
  decide

/-- Claim C2, amended: the summary message's first frame is exactly 47 bytes,
laid out little-endian as u16 channel, u8 version 0, u32 presamples, u32
record length, then f32 pretrigMean, peakValue, pulseRMS, pulseAverage,
residualStdDev, then i64 trigger time in Unix nanoseconds and i64 trigFrame;
the second frame is `modelCoefs` as a little-endian float64 array (possibly
empty), 8 bytes per coefficient. -/
theorem C2_summaries_layout (rec : DataRecord) :
    (messageSummaries rec).1
      = fromUint16 (goMask16 rec.channum)
        ++ fromUint8 0
        ++ fromUint32 (goUint32 rec.presamples)
        ++ fromUint32 (goUint32 (rec.data.length : Int))
        ++ fromFloat32Bits rec.pretrigMeanBits
        ++ fromFloat32Bits rec.peakValueBits
        ++ fromFloat32Bits rec.pulseRMSBits
        ++ fromFloat32Bits rec.pulseAverageBits
        ++ fromFloat32Bits rec.residualStdDevBits
        ++ fromInt64 rec.trigTime.UnixNano
        ++ fromInt64 rec.trigFrame
    ∧ (messageSummaries rec).1.length = 47
    ∧ (messageSummaries rec).2 = fromSliceFloat64Bits rec.modelCoefsBits
    ∧ (messageSummaries rec).2.length = 8 * rec.modelCoefsBits.length := by
  refine ⟨rfl, ?_, rfl, ?_⟩
  · simp [messageSummaries, fromUint16, fromUint8, fromUint32, fromFloat32Bits,
      fromInt64, bytesLE_length]
  · exact fromSliceFloat64Bits_length rec.modelCoefsBits

/-- Claim C3 evaluated on the code: at wall-clock time 1700000000 s + 5 ns,
`SetExperimentStateLabel "RUNNING"` appends the line `"5, RUNNING\n"` —
the `time.Now().Nanosecond()` sub-second offset — although the Unix-epoch
nanosecond count of the call is 1700000000000000005, and the header (written
exactly once, at creation) itself announces unix time in nanoseconds. -/
theorem C3_code_eval :
    (wsLazyEx.setExperimentStateLabel callTimeEx "RUNNING").experimentStateFile
      = some (ExpFile.mk false
          "# unix time in nanoseconds, state label5, RUNNING\n")
    ∧ (wsLazyEx.setExperimentStateLabel callTimeEx "RUNNING").ExperimentStateLabelUnixNano = 5
    ∧ callTimeEx.UnixNano = 1700000000000000005
    ∧ (5 : Int) ≠ 1700000000000000005 := by
  refine ⟨by decide, by decide, by decide, by decide⟩

/-- Claim C4 is false as stated: on a stream with `framesPerSample = 2`,
trimming `[1, 2]` down to one sample advances `firstFramenum` by 2 (one
discarded sample times two frames per sample), so the quantity
`firstFramenum + len(rawData)` grows from 2 to 3. -/
theorem C4_counterexample :
    ¬ ((DataStream.TrimKeepingN trimStreamEx 1).1.firstFramenum
          + ((DataStream.TrimKeepingN trimStreamEx 1).1.rawData.length : Int)
        = trimStreamEx.firstFramenum + (trimStreamEx.rawData.length : Int)) := by
  decide

/-- Claim C4, amended: `TrimKeepingN N` is a no-op returning the current
length when `len(rawData) ≤ N`; otherwise it retains exactly the trailing
`N` samples and advances `firstFramenum` by the number of discarded samples
times `framesPerSample`, so `firstFramenum + framesPerSample·len(rawData)`
(the frame index one past the buffer) is what stays unchanged — for
`framesPerSample = 1` this is the claim's `firstFramenum + len(rawData)`. -/
theorem C4_trim_amended (s : DataStream) (N : Nat) :
    (s.rawData.length ≤ N →
      DataStream.TrimKeepingN s N = (s, s.rawData.length))
    ∧ (N < s.rawData.length →
      (DataStream.TrimKeepingN s N).1.rawData = s.rawData.drop (s.rawData.length - N)
      ∧ (DataStream.TrimKeepingN s N).1.rawData.length = N
      ∧ (DataStream.TrimKeepingN s N).2 = N
      ∧ (DataStream.TrimKeepingN s N).1.firstFramenum
          = s.firstFramenum + ((s.rawData.length - N : Nat) : Int) * (s.framesPerSample : Int)
      ∧ (DataStream.TrimKeepingN s N).1.firstFramenum
            + ((DataStream.TrimKeepingN s N).1.rawData.length : Int) * (s.framesPerSample : Int)
          = s.firstFramenum + (s.rawData.length : Int) * (s.framesPerSample : Int)) := by
  constructor
  · intro h
    have hge : N ≥ s.rawData.length := h
    simp [DataStream.TrimKeepingN, hge]
  · intro h
    have hge : ¬ (N ≥ s.rawData.length) := by omega
    have hlen : (s.rawData.drop (s.rawData.length - N)).length = N := by
      rw [List.length_drop]
      omega
    refine ⟨?_, ?_, ?_, ?_, ?_⟩
    all_goals simp [DataStream.TrimKeepingN, hge, hlen]
    all_goals push_cast [Nat.cast_sub (le_of_lt h)]
    all_goals ring

/-- Witness for C4 (amended) at a concrete stream: trimming `[1, 2]` to one
sample keeps `[2]` and returns length 1. -/
theorem C4_witness :
    (DataStream.TrimKeepingN trimStreamEx 1).1.rawData.length = 1
    ∧ (DataStream.TrimKeepingN trimStreamEx 1).2 = 1 :=
  ⟨((C4_trim_amended trimStreamEx 1).2 (by decide)).2.1,
   ((C4_trim_amended trimStreamEx 1).2 (by decide)).2.2.1⟩

/-- Claim C5 evaluated on the code: on a 1-channel source, the index `-1`
passes the only validation (`channelIndex >= ds.nchan`) and the update loop
then evaluates `ds.processors[-1]` — a runtime panic (`none`), not an error
return; an out-of-range index on the high side (5) is caught and returns an
error with the processors untouched. -/
theorem C5_code_eval :
    changeTriggerState 1 [defaultTS]
      { ChannelIndicies := [-1], triggerState := edgeTS } = none
    ∧ changeTriggerState 1 [defaultTS]
        { ChannelIndicies := [5], triggerState := edgeTS }
      = some (Except.error "channelIndex is >= ds.nchan") := by
  refine ⟨rfl, rfl⟩

/-- Claim C6: a START request fails — with an error and with the source's
writing state and every channel's writer configuration untouched — whenever
all three file-type flags are off, or some channel already has a writer of
any type, or OFF output is requested while no channel has both a non-zero
projectors and a non-zero basis matrix loaded. -/
theorem C6_start_rejected (mkdir : Except String String) (now : GoTime)
    (source : AnySourceState) (config : WriteControlConfig) (rest : List Char)
    (hreq : goToUpper config.Request = reqSTART ++ rest)
    (hcond :
      (config.WriteLJH22 = false ∧ config.WriteOFF = false ∧ config.WriteLJH3 = false)
      ∨ (∃ dsp ∈ source.processors,
          dsp.DataPublisher.LJH22 ≠ none ∨ dsp.DataPublisher.OFF ≠ none
            ∨ dsp.DataPublisher.LJH3 ≠ none)
      ∨ (config.WriteOFF = true ∧ ∀ dsp ∈ source.processors,
          dsp.projectorsZero = true ∨ dsp.basisZero = true)) :
    (writeControl mkdir now source config).1 = source
    ∧ (writeControl mkdir now source config).2 ≠ none := by
  suffices h : ∀ w, writeControlValidate mkdir now source config source.writingState
      (goToUpper config.Request) ≠ Except.ok w by
    cases hv : writeControlValidate mkdir now source config source.writingState
        (goToUpper config.Request) with
    | error e => refine ⟨?_, ?_⟩ <;> simp [writeControl, hv]
    | ok w => exact (h w hv).elim
  rw [hreq]
  intro w hw
  rcases hcond with ⟨h22, hoff, h3⟩ | ⟨dsp, hmem, hwr⟩ | ⟨hoff, hall⟩
  · simp only [writeControlValidate, goStarts_start_self, h22, hoff, h3] at hw
    simp at hw
  · have hany : (source.processors.any fun d =>
        d.DataPublisher.LJH22.isSome || d.DataPublisher.OFF.isSome
          || d.DataPublisher.LJH3.isSome) = true := by
      refine List.any_eq_true.mpr ⟨dsp, hmem, ?_⟩
      simp only [Bool.or_eq_true, Option.isSome_iff_ne_none]
      tauto
    cases hb : (config.WriteLJH22 || config.WriteOFF || config.WriteLJH3) with
    | false =>
      simp only [writeControlValidate, goStarts_start_self, hb] at hw
      simp at hw
    | true =>
      simp only [writeControlValidate, goStarts_start_self, hb, hany] at hw
      simp at hw
  · have hany2 : (source.processors.any fun d =>
        !(d.projectorsZero || d.basisZero)) = false := by
      refine List.any_eq_false.mpr ?_
      intro d hm hp
      rcases hall d hm with h | h <;> simp [h] at hp
    cases hb2 : (source.processors.any fun d =>
        d.DataPublisher.LJH22.isSome || d.DataPublisher.OFF.isSome
          || d.DataPublisher.LJH3.isSome) with
    | true =>
      simp only [writeControlValidate, goStarts_start_self, hoff, hb2] at hw
      simp at hw
    | false =>
      cases mkdir with
      | error e =>
        simp only [writeControlValidate, goStarts_start_self, hoff, hb2] at hw
        simp at hw
      | ok pat =>
        simp only [writeControlValidate, goStarts_start_self, hoff, hb2, hany2] at hw
        simp at hw

/-- Witness for C6: a concrete START request with all three flags off on
`sourceEx` is rejected and leaves the source untouched. -/
theorem C6_witness :
    goToUpper "START" = reqSTART ++ []
    ∧ (writeControl (Except.ok "p") callTimeEx sourceEx
        { Request := "START", Path := "", WriteLJH22 := false, WriteOFF := false,
          WriteLJH3 := false }).1 = sourceEx :=
  ⟨by decide,
   (C6_start_rejected (Except.ok "p") callTimeEx sourceEx
     { Request := "START", Path := "", WriteLJH22 := false, WriteOFF := false,
       WriteLJH3 := false } [] (by decide)
     (Or.inl ⟨rfl, rfl, rfl⟩)).1⟩

/-- Claim C7: any request whose upper-casing begins with `STOP` drives the
writing state to inactive and unpaused with the pattern, state-file name and
label cleared, removes (closing them) all LJH22/OFF/LJH3 writer handles on
every channel, closes the experiment-state file when one is open, and
returns no error. -/
theorem C7_stop_resets (mkdir : Except String String) (now : GoTime)
    (source : AnySourceState) (config : WriteControlConfig) (rest : List Char)
    (hreq : goToUpper config.Request = reqSTOP ++ rest) :
    ((writeControl mkdir now source config).1).writingState.Active = false
    ∧ ((writeControl mkdir now source config).1).writingState.Paused = false
    ∧ ((writeControl mkdir now source config).1).writingState.FilenamePattern = ""
    ∧ ((writeControl mkdir now source config).1).writingState.ExperimentStateFilename = ""
    ∧ ((writeControl mkdir now source config).1).writingState.ExperimentStateLabel = ""
    ∧ (∀ dsp ∈ ((writeControl mkdir now source config).1).processors,
        dsp.DataPublisher.LJH22 = none ∧ dsp.DataPublisher.OFF = none
          ∧ dsp.DataPublisher.LJH3 = none)
    ∧ (∀ f, source.writingState.experimentStateFile = some f →
        ((writeControl mkdir now source config).1).writingState.experimentStateFile
          = some (ExpFile.mk true f.content))
    ∧ (writeControl mkdir now source config).2 = none := by
  have hw : writeControl mkdir now source config
      = applyStop source source.writingState := by
    unfold writeControl
    rw [hreq]
    simp [writeControlValidate, goStarts_stop_self, goStarts_stop_start,
      goStarts_stop_pause, goStarts_stop_unpause]
  rw [hw]
  refine ⟨rfl, rfl, rfl, rfl, rfl, ?_, ?_, rfl⟩
  · intro dsp hmem
    obtain ⟨d0, h0, rfl⟩ := List.mem_map.mp hmem
    exact ⟨rfl, rfl, rfl⟩
  · intro f hf
    simp [applyStop, hf]

/-- Witness for C7: a concrete `"Stop"` request on `sourceEx`. -/
theorem C7_witness :
    goToUpper "Stop" = reqSTOP ++ []
    ∧ ((writeControl (Except.ok "p") callTimeEx sourceEx
        { Request := "Stop", Path := "", WriteLJH22 := false, WriteOFF := false,
          WriteLJH3 := false }).1).writingState.Active = false :=
  ⟨by decide,
   (C7_stop_resets (Except.ok "p") callTimeEx sourceEx
     { Request := "Stop", Path := "", WriteLJH22 := false, WriteOFF := false,
       WriteLJH3 := false } [] (by decide)).1⟩

/-- Claim C8: `AppendSegment` concatenates the samples, adds the segment
length to `samplesSeen`, recomputes
`firstFramenum = segment.firstFramenum − len(previous)·framesPerSample`,
and consequently the appended stream's final sample carries exactly the
absolute frame index the source declared for the segment's final sample. -/
theorem C8_append_rebase (stream : DataStream) (segment : DataSegment)
    (h : segment.rawData ≠ []) :
    (stream.AppendSegment segment).rawData = stream.rawData ++ segment.rawData
    ∧ (stream.AppendSegment segment).samplesSeen
        = stream.samplesSeen + segment.rawData.length
    ∧ (stream.AppendSegment segment).firstFramenum
        = segment.firstFramenum
            - (stream.rawData.length : Int) * (segment.framesPerSample : Int)
    ∧ sampleFrame (stream.AppendSegment segment).firstFramenum
          (stream.AppendSegment segment).framesPerSample
          ((stream.AppendSegment segment).rawData.length - 1)
      = sampleFrame segment.firstFramenum segment.framesPerSample
          (segment.rawData.length - 1) := by
  have hg : 1 ≤ segment.rawData.length := List.length_pos.mpr h
  refine ⟨rfl, rfl, ?_, ?_⟩
  · simp [DataStream.AppendSegment]
  · have e1 : ((stream.rawData.length + segment.rawData.length - 1 : Nat) : Int)
        = (stream.rawData.length : Int) + (segment.rawData.length : Int) - 1 := by
      omega
    have e2 : ((segment.rawData.length - 1 : Nat) : Int)
        = (segment.rawData.length : Int) - 1 := by
      omega
    simp [DataStream.AppendSegment, sampleFrame, e1, e2]
    ring

/-- Witness for C8 at a concrete stream and segment. -/
theorem C8_witness :
    ((1 : Nat) :: [2, 3]) ≠ []
    ∧ (DataStream.AppendSegment trimStreamEx
        { rawData := [1, 2, 3], signed := false, framesPerSample := 1,
          firstFramenum := 100, firstTime := 0, framePeriod := 5,
          processed := false }).samplesSeen = 5 :=
  ⟨by decide,
   (C8_append_rebase trimStreamEx
      { rawData := [1, 2, 3], signed := false, framesPerSample := 1,
        firstFramenum := 100, firstTime := 0, framePeriod := 5,
        processed := false } (by decide)).2.1⟩

/-- Claim C9: `TrimKeepingN` is idempotent — trimming an already-trimmed
stream with the same `N` changes nothing, including the returned length. -/
theorem C9_trim_idempotent (s : DataStream) (N : Nat) :
    DataStream.TrimKeepingN (DataStream.TrimKeepingN s N).1 N
      = DataStream.TrimKeepingN s N := by
  by_cases h : N ≥ s.rawData.length
  · simp [DataStream.TrimKeepingN, h]
  · have hlen : (s.rawData.drop (s.rawData.length - N)).length = N := by
      rw [List.length_drop]
      omega
    simp [DataStream.TrimKeepingN, h, hlen]

/-- Claim C10: packing four ints with `rcCode` and reading the fields back
with `row/col/rows/cols` round-trips each field modulo `2^16`; in particular
each field in `[0, 65536)` is returned exactly. -/
theorem C10_rcCode_roundtrip (row col rows cols : Int) :
    RowColCode.row (rcCode row col rows cols) = row % 65536
    ∧ RowColCode.col (rcCode row col rows cols) = col % 65536
    ∧ RowColCode.rows (rcCode row col rows cols) = rows % 65536
    ∧ RowColCode.cols (rcCode row col rows cols) = cols % 65536
    ∧ (0 ≤ row → row < 65536 → RowColCode.row (rcCode row col rows cols) = row)
    ∧ (0 ≤ col → col < 65536 → RowColCode.col (rcCode row col rows cols) = col)
    ∧ (0 ≤ rows → rows < 65536 → RowColCode.rows (rcCode row col rows cols) = rows)
    ∧ (0 ≤ cols → cols < 65536 → RowColCode.cols (rcCode row col rows cols) = cols) := by
  have hrow := goMask16_lt row
  have hcol := goMask16_lt col
  have hrows := goMask16_lt rows
  have hcols := goMask16_lt cols
  have e1 : RowColCode.row (rcCode row col rows cols) = (goMask16 row : Int) := by
    unfold RowColCode.row rcCode
    norm_cast
    omega
  have e2 : RowColCode.col (rcCode row col rows cols) = (goMask16 col : Int) := by
    unfold RowColCode.col rcCode
    norm_cast
    omega
  have e3 : RowColCode.rows (rcCode row col rows cols) = (goMask16 rows : Int) := by
    unfold RowColCode.rows rcCode
    norm_cast
    omega
  have e4 : RowColCode.cols (rcCode row col rows cols) = (goMask16 cols : Int) := by
    unfold RowColCode.cols rcCode
    norm_cast
    omega
  refine ⟨?_, ?_, ?_, ?_, ?_, ?_, ?_, ?_⟩
  · rw [e1, goMask16_cast]
  · rw [e2, goMask16_cast]
  · rw [e3, goMask16_cast]
  · rw [e4, goMask16_cast]
  · intro h0 h1
    rw [e1, goMask16_cast]
    omega
  · intro h0 h1
    rw [e2, goMask16_cast]
    omega
  · intro h0 h1
    rw [e3, goMask16_cast]
    omega
  · intro h0 h1
    rw [e4, goMask16_cast]
    omega

/-- Witness for C10 at the concrete geometry (row 3, col 4, 5 rows, 6 cols). -/
theorem C10_witness :
    (0 : Int) ≤ 3 ∧ (3 : Int) < 65536 ∧ RowColCode.row (rcCode 3 4 5 6) = 3 :=
  ⟨by decide, by decide, (C10_rcCode_roundtrip 3 4 5 6).2.2.2.2.1 (by decide) (by decide)⟩
